import Mathlib

/-!
Verification development for the MoveIt 2 planning pipeline
(moveit_ros/planning/planning_pipeline/include/moveit/planning_pipeline/planning_pipeline.h).

The repository ships only the declaration header of class
planning_pipeline::PlanningPipeline; the inline member bodies (the deprecated
block, isActive, getPlannerPluginName, getAdapterPluginNames, getPlannerManager,
getRobotModel) are embedded directly from that header.  The bodies of
generatePlan, terminate and configure live in planning_pipeline.cpp, which is
not part of the sources; those operations are modelled from the specification
(spec.md sections 4.2, 4.4, 5 and 7) and every such definition says so in its
doc comment.
-/

/-- Scenes are abstract tokens: the pipeline never inspects them, it only
hands them to the planner, the adapters and the solution checker. -/
abbrev Scene := Nat

/-- Motion-plan requests are abstract tokens transformed by adapters. -/
abbrev MotionPlanRequest := Nat

/-- Shallow embedding of planning_interface::MotionPlanResponse as the pipeline
observes it: a trajectory plus the contacts attached by re-validation. -/
structure MotionPlanResponse where
  trajectory : List Nat
  contacts : List Nat
  deriving DecidableEq, Repr

/-- Observable events emitted while the pipeline runs: adapter pre/post
processing calls, the terminal solve, the ActiveFlag writes, and the three
best-effort diagnostic publishes (each recording whether the sink accepted
it). -/
inductive Event where
  | preCall (name : String)
  | solveCall
  | postCall (name : String)
  | shortCircuited (name : String)
  | setActive (b : Bool)
  | publishedRequest (ok : Bool)
  | publishedTrajectory (ok : Bool)
  | publishedContacts (ok : Bool)
  deriving DecidableEq, Repr

/-- Modelled from the spec: a resolved core planner handle (the
planning_interface::PlannerManager instance; its class is outside this
repository).  `solve` produces a response and a success flag. -/
structure PlannerHandle where
  name : String
  solve : Scene → MotionPlanRequest → MotionPlanResponse × Bool

/-- Modelled from the spec: a resolved planning-request adapter
(planning_request_adapter::PlanningRequestAdapter is outside this repository).
An adapter may transform the request on the way down, transform the
response/success pair on the way up, or short-circuit and refuse to delegate
(spec section 4.2). -/
structure PlanningRequestAdapter where
  name : String
  preProcess : MotionPlanRequest → MotionPlanRequest
  postProcess : MotionPlanResponse × Bool → MotionPlanResponse × Bool
  refuse : MotionPlanRequest → Option (MotionPlanResponse × Bool)

/-- A chain stage: given scene and request, produce (response, success) and
the trace of events that occurred. -/
abbrev ChainCallable := Scene → MotionPlanRequest → (MotionPlanResponse × Bool) × List Event

/-- Modelled from the spec: the terminal stage of the chain is the core
Planner Manager's solve operation (spec section 4.2). -/
def plannerCallable (p : PlannerHandle) : ChainCallable :=
  fun scene req => (p.solve scene req, [Event.solveCall])

/-- Modelled from the spec: wrap one adapter around an already-formed
downstream callable; a delegating adapter pre-processes the request, calls
downstream, then post-processes the result (spec section 4.2). -/
def wrapAdapter (a : PlanningRequestAdapter) (next : ChainCallable) : ChainCallable :=
  fun scene req =>
    match a.refuse req with
    | some rb => (rb, [Event.shortCircuited a.name])
    | none =>
      let inner := next scene (a.preProcess req)
      (a.postProcess inner.1, Event.preCall a.name :: (inner.2 ++ [Event.postCall a.name]))

/-- Modelled from the spec: the adapter chain (adapter_chain_, built by
planning_request_adapter::PlanningRequestAdapterChain, outside this
repository) is constructed in reverse order so each adapter's downstream
delegate is fully formed before the adapter is wrapped (spec section 4.2). -/
def buildChain (adapters : List PlanningRequestAdapter) (p : PlannerHandle) : ChainCallable :=
  adapters.foldr wrapAdapter (plannerCallable p)

/-- Modelled from the spec: ephemeral record of re-validation findings,
spec section 3 SolutionCheckResult. -/
structure SolutionCheckResult where
  valid : Bool
  contacts : List Nat
  deriving DecidableEq, Repr

/-- Modelled from the spec: the Diagnostic Sink's three independent
best-effort publish channels; each boolean says whether a publish on that
channel would succeed (spec section 6). -/
structure DiagnosticSink where
  requestPublishOk : Bool
  trajectoryPublishOk : Bool
  contactsPublishOk : Bool
  deriving DecidableEq, Repr

/-- The PlanningPipeline state visible through the header: the atomic
active_ flag (line 167), the cooperative termination signal owned by the
pipeline (spec section 5), and the configuration-time names
planner_plugin_name_ (line 179) and adapter_plugin_names_ (line 183). -/
structure PipelineState where
  active_ : Bool
  termination_requested : Bool
  planner_plugin_name_ : String
  adapter_plugin_names_ : List String
  deriving DecidableEq, Repr

/-- Modelled from the spec: ActiveFlag lifecycle starts false at
construction (spec section 3); the names are stored at configuration time. -/
def PipelineState.init (plannerName : String) (adapterNames : List String) : PipelineState :=
  { active_ := false
    termination_requested := false
    planner_plugin_name_ := plannerName
    adapter_plugin_names_ := adapterNames }

/-- Embedded from the header, line 158: isActive() returns active_. -/
def isActive (st : PipelineState) : Bool :=
  st.active_

/-- Embedded from the header, line 134: getPlannerPluginName() returns
planner_plugin_name_. -/
def getPlannerPluginName (st : PipelineState) : String :=
  st.planner_plugin_name_

/-- Embedded from the header, line 140: getAdapterPluginNames() returns
adapter_plugin_names_. -/
def getAdapterPluginNames (st : PipelineState) : List String :=
  st.adapter_plugin_names_

/-- Embedded from the header, line 94: deprecated setter with empty body. -/
def displayComputedMotionPlans (st : PipelineState) (_flag : Bool) : PipelineState :=
  st

/-- Embedded from the header, line 95: deprecated setter with empty body. -/
def publishReceivedRequests (st : PipelineState) (_flag : Bool) : PipelineState :=
  st

/-- Embedded from the header, line 96: deprecated setter with empty body. -/
def checkSolutionPaths (st : PipelineState) (_flag : Bool) : PipelineState :=
  st

/-- Embedded from the header, lines 97-100: deprecated getter, returns false. -/
def getDisplayComputedMotionPlans (_st : PipelineState) : Bool :=
  false

/-- Embedded from the header, lines 101-104: deprecated getter, returns false. -/
def getPublishReceivedRequests (_st : PipelineState) : Bool :=
  false

/-- Embedded from the header, lines 105-108: deprecated getter, returns false. -/
def getCheckSolutionPaths (_st : PipelineState) : Bool :=
  false

/-- Modelled from the spec: generatePlan's body is in planning_pipeline.cpp,
absent from the sources; this follows spec section 4.4 steps 1-8 exactly.
The chain argument may fail with an error (Except.error) to model an
exception thrown inside the adapter-chain/solve step; it also returns the
trace of events it produced.  The result is (outcome, final state, trace). -/
def generatePlan
    (chain : Scene → MotionPlanRequest → Except String (MotionPlanResponse × Bool) × List Event)
    (checkSolution : Scene → MotionPlanResponse → SolutionCheckResult)
    (sink : DiagnosticSink)
    (st : PipelineState) (scene : Scene) (req : MotionPlanRequest)
    (publish_received_requests check_solution_paths display_computed_motion_plans : Bool) :
    Except String (MotionPlanResponse × Bool) × PipelineState × List Event :=
  let pr := chain scene req
  let tr1 : List Event :=
    if publish_received_requests then [Event.publishedRequest sink.requestPublishOk] else []
  let baseTrace : List Event :=
    tr1 ++ [Event.setActive true] ++ pr.2 ++ [Event.setActive false]
  let stOut : PipelineState := { st with active_ := false }
  match pr.1 with
  | Except.error e => (Except.error e, stOut, baseTrace)
  | Except.ok rb =>
    if rb.2 then
      if check_solution_paths then
        let chkRes := checkSolution scene rb.1
        if chkRes.valid then
          (Except.ok (rb.1, true), stOut,
            baseTrace ++
              (if display_computed_motion_plans then
                [Event.publishedTrajectory sink.trajectoryPublishOk] else []))
        else
          (Except.ok ({ rb.1 with contacts := chkRes.contacts }, false), stOut,
            baseTrace ++ [Event.publishedContacts sink.contactsPublishOk])
      else
        (Except.ok (rb.1, true), stOut,
          baseTrace ++
            (if display_computed_motion_plans then
              [Event.publishedTrajectory sink.trajectoryPublishOk] else []))
    else
      (Except.ok (rb.1, false), stOut, baseTrace)

/-- Modelled from the spec: terminate's body is in planning_pipeline.cpp,
absent from the sources; per spec section 4.4 it only sets the cooperative
termination signal and is a no-op when ActiveFlag is false. -/
def terminate (st : PipelineState) : PipelineState :=
  if st.active_ then { st with termination_requested := true } else st

/-- Modelled from the spec: the Capability Registry consumed by configure
(spec section 4.1); pluginlib class loaders are outside this repository. -/
structure CapabilityRegistry where
  resolvePlanner : String → Option PlannerHandle
  resolveAdapter : String → Option PlanningRequestAdapter

/-- Modelled from the spec: resolve every adapter name in order; any
resolution failure fails the whole list (no partial chains, spec
section 4.1). -/
def resolveAdapters (reg : CapabilityRegistry) : List String → Option (List PlanningRequestAdapter)
  | [] => some []
  | n :: rest =>
    match reg.resolveAdapter n with
    | none => none
    | some a =>
      match resolveAdapters reg rest with
      | none => none
      | some tailAdapters => some (a :: tailAdapters)

/-- A successfully configured pipeline: the bound planner (planner_instance_,
header line 178), the resolved adapter chain (adapter_chain_, line 182), and
the stored state with names. -/
structure ConfiguredPipeline where
  planner_instance_ : PlannerHandle
  adapter_chain_ : List PlanningRequestAdapter
  state : PipelineState

/-- Modelled from the spec: configure's body is in planning_pipeline.cpp,
absent from the sources; per spec section 4.4 it resolves the planner and
every adapter via the Registry and fails with a ConfigurationError if any
name fails to resolve, leaving no planner bound. -/
def configure (reg : CapabilityRegistry) (plannerName : String) (adapterNames : List String) :
    Except String ConfiguredPipeline :=
  match reg.resolvePlanner plannerName with
  | none => Except.error ("ConfigurationError: planner " ++ plannerName)
  | some p =>
    match resolveAdapters reg adapterNames with
    | none => Except.error "ConfigurationError: adapter"
    | some adapters =>
      Except.ok
        { planner_instance_ := p
          adapter_chain_ := adapters
          state := PipelineState.init plannerName adapterNames }

/-- One call arriving at the pipeline after configuration: a generatePlan
invocation (with its collaborators and options), a terminate request, or an
isActive observation. -/
inductive PipelineOp where
  | genPlan
      (chain : Scene → MotionPlanRequest → Except String (MotionPlanResponse × Bool) × List Event)
      (checkSolution : Scene → MotionPlanResponse → SolutionCheckResult)
      (sink : DiagnosticSink) (scene : Scene) (req : MotionPlanRequest)
      (prr csp dcmp : Bool)
  | term
  | readIsActive

/-- State effect of one pipeline operation. -/
def applyOp (st : PipelineState) : PipelineOp → PipelineState
  | PipelineOp.genPlan chain chk sink scene req a b c =>
      (generatePlan chain chk sink st scene req a b c).2.1
  | PipelineOp.term => terminate st
  | PipelineOp.readIsActive => st

/-- Run a sequence of interleaved pipeline operations. -/
def runOps (ops : List PipelineOp) (st : PipelineState) : PipelineState :=
  ops.foldl applyOp st

/-! Concrete fixtures used by the witness theorems. -/

/-- A concrete planner handle named as in spec scenario A. -/
def plannerHandle0 : PlannerHandle :=
  { name := "OMPL"
    solve := fun _ _ => ({ trajectory := [1, 2], contacts := [] }, true) }

/-- A concrete delegating adapter. -/
def adapterFix : PlanningRequestAdapter :=
  { name := "FixStartState"
    preProcess := fun r => r + 1
    postProcess := fun rb => rb
    refuse := fun _ => none }

/-- A second concrete delegating adapter. -/
def adapterTime : PlanningRequestAdapter :=
  { name := "AddTimeParameterization"
    preProcess := fun r => r
    postProcess := fun rb => rb
    refuse := fun _ => none }

/-- A concrete registry resolving exactly the two names above. -/
def reg0 : CapabilityRegistry :=
  { resolvePlanner := fun n => if n = "OMPL" then some plannerHandle0 else none
    resolveAdapter := fun n => if n = "FixStartState" then some adapterFix else none }

/-- The pipeline that configure builds from reg0. -/
def pipe0 : ConfiguredPipeline :=
  { planner_instance_ := plannerHandle0
    adapter_chain_ := [adapterFix]
    state := PipelineState.init "OMPL" ["FixStartState"] }

/-- A concrete response used in witnesses. -/
def res0 : MotionPlanResponse :=
  { trajectory := [1, 2], contacts := [] }

/-- A chain whose core planner reports failure. -/
def chainFail : Scene → MotionPlanRequest → Except String (MotionPlanResponse × Bool) × List Event :=
  fun _ _ => (Except.ok ({ trajectory := [], contacts := [] }, false), [Event.solveCall])

/-- A chain whose core planner reports success with res0. -/
def chainOk : Scene → MotionPlanRequest → Except String (MotionPlanResponse × Bool) × List Event :=
  fun _ _ => (Except.ok (res0, true), [Event.solveCall])

/-- A solution checker that accepts every trajectory. -/
def checkAlwaysValid : Scene → MotionPlanResponse → SolutionCheckResult :=
  fun _ _ => { valid := true, contacts := [] }

/-- A solution checker that finds a contact on every trajectory. -/
def checkAlwaysContact : Scene → MotionPlanResponse → SolutionCheckResult :=
  fun _ _ => { valid := false, contacts := [7] }

/-- A sink on which every publish succeeds. -/
def sink0 : DiagnosticSink :=
  { requestPublishOk := true, trajectoryPublishOk := true, contactsPublishOk := true }

/-- A configured idle pipeline state. -/
def st0 : PipelineState :=
  PipelineState.init "OMPL" ["FixStartState"]

/-- A concrete operation sequence interleaving generatePlan, terminate and
isActive reads. -/
def ops0 : List PipelineOp :=
  [PipelineOp.genPlan chainOk checkAlwaysValid sink0 1 2 true true true,
    PipelineOp.term, PipelineOp.readIsActive,
    PipelineOp.genPlan chainFail checkAlwaysContact sink0 1 2 false false false,
    PipelineOp.term]

/-! Helper lemmas shared by several claim proofs. -/

/-- The state returned by generatePlan is the input state with the active
flag cleared, on every exit path. -/
theorem generatePlan_finalState
    (chain : Scene → MotionPlanRequest → Except String (MotionPlanResponse × Bool) × List Event)
    (chk : Scene → MotionPlanResponse → SolutionCheckResult) (sink : DiagnosticSink)
    (st : PipelineState) (scene : Scene) (req : MotionPlanRequest) (a b c : Bool) :
    (generatePlan chain chk sink st scene req a b c).2.1 = { st with active_ := false } := by
  unfold generatePlan
  rcases h : (chain scene req).1 with e | ⟨res, succ⟩
  · simp [h]
  · cases hv : (chk scene res).valid <;> cases succ <;> cases b <;> simp [h, hv]

/-- The trace of generatePlan always starts with the optional request
publish, the active-flag raise, the chain trace, and the active-flag clear. -/
theorem generatePlan_trace_shape
    (chain : Scene → MotionPlanRequest → Except String (MotionPlanResponse × Bool) × List Event)
    (chk : Scene → MotionPlanResponse → SolutionCheckResult) (sink : DiagnosticSink)
    (st : PipelineState) (scene : Scene) (req : MotionPlanRequest) (a b c : Bool) :
    ∃ rest, (generatePlan chain chk sink st scene req a b c).2.2 =
      (if a then [Event.publishedRequest sink.requestPublishOk] else []) ++
        [Event.setActive true] ++ (chain scene req).2 ++ [Event.setActive false] ++ rest := by
  unfold generatePlan
  rcases h : (chain scene req).1 with e | ⟨res, succ⟩
  · exact ⟨[], by simp [h]⟩
  · cases succ with
    | false => exact ⟨[], by simp [h]⟩
    | true =>
      cases b with
      | false =>
        exact ⟨if c then [Event.publishedTrajectory sink.trajectoryPublishOk] else [],
          by simp [h]⟩
      | true =>
        cases hv : (chk scene res).valid with
        | false =>
          exact ⟨[Event.publishedContacts sink.contactsPublishOk], by simp [h, hv]⟩
        | true =>
          exact ⟨if c then [Event.publishedTrajectory sink.trajectoryPublishOk] else [],
            by simp [h, hv]⟩

/-! Claim theorems. -/

/-- C1: the ActiveFlag is false at construction, is set true at the start of
the core-solve phase (the setActive true event immediately precedes the
chain's trace), and is false again once generatePlan returns on every exit
path — success, planning failure, or an error thrown inside the
adapter-chain/solve step — so isActive observed strictly after generatePlan
returns is always false. -/
theorem active_flag_lifecycle :
    (∀ pn ans, isActive (PipelineState.init pn ans) = false) ∧
    (∀ (chain : Scene → MotionPlanRequest →
          Except String (MotionPlanResponse × Bool) × List Event)
        (chk : Scene → MotionPlanResponse → SolutionCheckResult)
        (sink : DiagnosticSink) (st : PipelineState)
        (scene : Scene) (req : MotionPlanRequest) (a b c : Bool),
      isActive (generatePlan chain chk sink st scene req a b c).2.1 = false ∧
      ∃ rest, (generatePlan chain chk sink st scene req a b c).2.2 =
        (if a then [Event.publishedRequest sink.requestPublishOk] else []) ++
          [Event.setActive true] ++ (chain scene req).2 ++ [Event.setActive false] ++ rest) := by
  refine ⟨fun pn ans => rfl, fun chain chk sink st scene req a b c => ⟨?_, ?_⟩⟩
  · rw [generatePlan_finalState]
    rfl
  · exact generatePlan_trace_shape chain chk sink st scene req a b c

/-- C3: with an empty adapter list, invoking the adapter chain is behaviorally
identical to invoking the core Planner Manager's solve directly: same
response and same success flag. -/
theorem empty_chain_refines_planner (p : PlannerHandle) (scene : Scene)
    (req : MotionPlanRequest) :
    (buildChain [] p scene req).1 = p.solve scene req :=
  rfl

/-- C7: the outcome (response and success flag) and the final state of
generatePlan are independent of whether any of the three best-effort
diagnostic publishes succeeds: publish failures are swallowed and never
surface to the caller. -/
theorem sink_failures_do_not_affect_result
    (chain : Scene → MotionPlanRequest →
      Except String (MotionPlanResponse × Bool) × List Event)
    (chk : Scene → MotionPlanResponse → SolutionCheckResult)
    (s1 s2 : DiagnosticSink) (st : PipelineState)
    (scene : Scene) (req : MotionPlanRequest) (a b c : Bool) :
    (generatePlan chain chk s1 st scene req a b c).1 =
      (generatePlan chain chk s2 st scene req a b c).1 ∧
    (generatePlan chain chk s1 st scene req a b c).2.1 =
      (generatePlan chain chk s2 st scene req a b c).2.1 := by
  constructor
  · unfold generatePlan
    rcases h : (chain scene req).1 with e | ⟨res, succ⟩
    · simp [h]
    · cases hv : (chk scene res).valid <;> cases succ <;> cases b <;> simp [h, hv]
  · rw [generatePlan_finalState, generatePlan_finalState]

/-- C8: terminate is a no-op when the ActiveFlag is false, leaving the state
unchanged; when a computation is in progress it only sets the cooperative
termination signal and modifies no other field. -/
theorem terminate_spec (st : PipelineState) :
    (isActive st = false → terminate st = st) ∧
    (isActive st = true →
      terminate st = { st with termination_requested := true } ∧
      (terminate st).active_ = st.active_ ∧
      (terminate st).planner_plugin_name_ = st.planner_plugin_name_ ∧
      (terminate st).adapter_plugin_names_ = st.adapter_plugin_names_) := by
  constructor
  · intro h
    simp only [isActive] at h
    simp [terminate, h]
  · intro h
    simp only [isActive] at h
    simp [terminate, h]

/-- Witness for C8 at concrete states: st0 is inactive and terminate leaves
it unchanged; on the same state made active, terminate only raises the
termination signal. -/
theorem terminate_spec_witness :
    (isActive st0 = false ∧ terminate st0 = st0) ∧
    (isActive { st0 with active_ := true } = true ∧
      terminate { st0 with active_ := true } =
        { st0 with active_ := true, termination_requested := true }) :=
  ⟨⟨rfl, (terminate_spec st0).1 rfl⟩,
    ⟨rfl, ((terminate_spec { st0 with active_ := true }).2 rfl).1⟩⟩

/-- C10: the deprecated per-instance toggle setters leave all pipeline state
unchanged and the deprecated getters always return false, regardless of the
state they are called on or the flag passed. -/
theorem deprecated_members_spec (st : PipelineState) (flag : Bool) :
    displayComputedMotionPlans st flag = st ∧
    publishReceivedRequests st flag = st ∧
    checkSolutionPaths st flag = st ∧
    getDisplayComputedMotionPlans st = false ∧
    getPublishReceivedRequests st = false ∧
    getCheckSolutionPaths st = false :=
  ⟨rfl, rfl, rfl, rfl, rfl, rfl⟩

/-- C2: when every configured adapter delegates (never short-circuits), the
chain calls each adapter's pre-processing in exactly the configured order and
each adapter's post-processing in exactly the reverse order, with the core
Planner Manager's solve as the terminal stage; adapters are neither reordered
nor deduplicated, as the trace is the literal map over the configured list. -/
theorem chain_ordering (adapters : List PlanningRequestAdapter) (p : PlannerHandle)
    (scene : Scene) (req : MotionPlanRequest)
    (hdeleg : ∀ a ∈ adapters, ∀ r, a.refuse r = none) :
    (buildChain adapters p scene req).2 =
      (adapters.map fun a => Event.preCall a.name) ++ [Event.solveCall] ++
        (adapters.reverse.map fun a => Event.postCall a.name) := by
  induction adapters generalizing req with
  | nil => rfl
  | cons a rest ih =>
    have ha : ∀ r, a.refuse r = none := hdeleg a (List.mem_cons_self a rest)
    have hrest : ∀ x ∈ rest, ∀ r, x.refuse r = none :=
      fun x hx => hdeleg x (List.mem_cons_of_mem a hx)
    show (wrapAdapter a (buildChain rest p) scene req).2 = _
    rw [wrapAdapter]
    simp only [ha]
    rw [ih (a.preProcess req) hrest]
    simp [List.append_assoc]

/-- Witness for C2: two concrete delegating adapters produce the concrete
trace pre, pre, solve, post, post with reversed post order. -/
theorem chain_ordering_witness :
    (∀ a ∈ [adapterFix, adapterTime], ∀ r, a.refuse r = none) ∧
    (buildChain [adapterFix, adapterTime] plannerHandle0 3 5).2 =
      [Event.preCall "FixStartState", Event.preCall "AddTimeParameterization",
        Event.solveCall,
        Event.postCall "AddTimeParameterization", Event.postCall "FixStartState"] := by
  have hdeleg : ∀ a ∈ [adapterFix, adapterTime], ∀ r, a.refuse r = none := by
    intro a ha r
    rcases List.mem_cons.mp ha with h1 | h1
    · rw [h1]; rfl
    · rcases List.mem_cons.mp h1 with h2 | h2
      · rw [h2]; rfl
      · cases h2
  refine ⟨hdeleg, ?_⟩
  rw [chain_ordering [adapterFix, adapterTime] plannerHandle0 3 5 hdeleg]
  rfl

/-- C4: when the adapter chain (core planner) reports failure, generatePlan
returns (response, false) immediately: the trace ends at the active-flag
clear, so no solution re-validation event and no trajectory publish occur,
regardless of the check_solution_paths and display_computed_motion_plans
options. -/
theorem planner_failure_returns_immediately
    (chain : Scene → MotionPlanRequest →
      Except String (MotionPlanResponse × Bool) × List Event)
    (chk : Scene → MotionPlanResponse → SolutionCheckResult)
    (sink : DiagnosticSink) (st : PipelineState)
    (scene : Scene) (req : MotionPlanRequest) (a b c : Bool)
    (res : MotionPlanResponse)
    (hfail : (chain scene req).1 = Except.ok (res, false)) :
    (generatePlan chain chk sink st scene req a b c).1 = Except.ok (res, false) ∧
    (generatePlan chain chk sink st scene req a b c).2.2 =
      (if a then [Event.publishedRequest sink.requestPublishOk] else []) ++
        [Event.setActive true] ++ (chain scene req).2 ++ [Event.setActive false] := by
  unfold generatePlan
  simp [hfail]

/-- Witness for C4: a chain whose planner fails, with both options enabled;
the result is the failed response and the trace carries no contact or
trajectory publish. -/
theorem planner_failure_returns_immediately_witness :
    (chainFail 3 5).1 = Except.ok ({ trajectory := [], contacts := [] }, false) ∧
    (generatePlan chainFail checkAlwaysValid sink0 st0 3 5 true true true).1 =
      Except.ok ({ trajectory := [], contacts := [] }, false) ∧
    (generatePlan chainFail checkAlwaysValid sink0 st0 3 5 true true true).2.2 =
      [Event.publishedRequest true, Event.setActive true, Event.solveCall,
        Event.setActive false] := by
  have h := planner_failure_returns_immediately chainFail checkAlwaysValid sink0 st0 3 5
    true true true { trajectory := [], contacts := [] } rfl
  exact ⟨rfl, h.1, by rw [h.2]; rfl⟩

/-- C5: with check_solution_paths set, when the planner reports success but
re-validation finds a violation, the overall success flag is downgraded to
false, the found contacts are attached to the response, and a contact marker
publish is recorded on the diagnostic sink. -/
theorem revalidation_downgrades
    (chain : Scene → MotionPlanRequest →
      Except String (MotionPlanResponse × Bool) × List Event)
    (chk : Scene → MotionPlanResponse → SolutionCheckResult)
    (sink : DiagnosticSink) (st : PipelineState)
    (scene : Scene) (req : MotionPlanRequest) (a c : Bool)
    (res : MotionPlanResponse)
    (hok : (chain scene req).1 = Except.ok (res, true))
    (hbad : (chk scene res).valid = false) :
    (generatePlan chain chk sink st scene req a true c).1 =
      Except.ok ({ res with contacts := (chk scene res).contacts }, false) ∧
    Event.publishedContacts sink.contactsPublishOk ∈
      (generatePlan chain chk sink st scene req a true c).2.2 := by
  unfold generatePlan
  simp [hok, hbad]

/-- Witness for C5: a chain reporting success and a checker that finds
contact 7; the response carries contact 7, success is downgraded to false
and the contact publish is in the trace. -/
theorem revalidation_downgrades_witness :
    (chainOk 3 5).1 = Except.ok (res0, true) ∧
    (checkAlwaysContact 3 res0).valid = false ∧
    (generatePlan chainOk checkAlwaysContact sink0 st0 3 5 false true true).1 =
      Except.ok ({ res0 with contacts := (checkAlwaysContact 3 res0).contacts }, false) ∧
    Event.publishedContacts true ∈
      (generatePlan chainOk checkAlwaysContact sink0 st0 3 5 false true true).2.2 := by
  have h := revalidation_downgrades chainOk checkAlwaysContact sink0 st0 3 5
    false true res0 rfl rfl
  exact ⟨rfl, rfl, h.1, h.2⟩

/-- If any adapter name in the list fails to resolve, the whole list fails
to resolve. -/
theorem resolveAdapters_none_of_mem (reg : CapabilityRegistry) (names : List String)
    (n : String) (hn : n ∈ names) (h : reg.resolveAdapter n = none) :
    resolveAdapters reg names = none := by
  induction names with
  | nil => cases hn
  | cons m rest ih =>
    rcases List.mem_cons.mp hn with h1 | h1
    · rw [h1] at h
      simp [resolveAdapters, h]
    · unfold resolveAdapters
      cases reg.resolveAdapter m
      · rfl
      · rw [ih h1]

/-- A successfully resolved adapter list has one adapter per name. -/
theorem resolveAdapters_length (reg : CapabilityRegistry) :
    ∀ (names : List String) (l : List PlanningRequestAdapter),
      resolveAdapters reg names = some l → l.length = names.length := by
  intro names
  induction names with
  | nil =>
    intro l h
    cases h
    rfl
  | cons m rest ih =>
    intro l h
    unfold resolveAdapters at h
    cases hm : reg.resolveAdapter m <;> rw [hm] at h
    · cases h
    · cases hr : resolveAdapters reg rest <;> rw [hr] at h
      · cases h
      · cases h
        simp [ih _ hr]

/-- C6: configuration fails with a ConfigurationError whenever the named
planner plugin or any named adapter plugin fails to resolve in the registry,
and a successful configuration binds exactly the resolved planner and one
adapter per configured name (no partial chains), with the names stored in
the fresh inactive state. -/
theorem configure_resolution_failure (reg : CapabilityRegistry) (pn : String)
    (ans : List String) :
    ((reg.resolvePlanner pn = none ∨ ∃ n ∈ ans, reg.resolveAdapter n = none) →
      ∃ e, configure reg pn ans = Except.error e) ∧
    (∀ p, configure reg pn ans = Except.ok p →
      reg.resolvePlanner pn = some p.planner_instance_ ∧
      p.adapter_chain_.length = ans.length ∧
      p.state = PipelineState.init pn ans) := by
  constructor
  · rintro (h | ⟨n, hn, h⟩)
    · exact ⟨"ConfigurationError: planner " ++ pn, by simp [configure, h]⟩
    · unfold configure
      cases hp : reg.resolvePlanner pn
      · exact ⟨_, rfl⟩
      · rw [resolveAdapters_none_of_mem reg ans n hn h]
        exact ⟨_, rfl⟩
  · intro p hp
    unfold configure at hp
    cases h1 : reg.resolvePlanner pn <;> rw [h1] at hp
    · cases hp
    · cases h2 : resolveAdapters reg ans <;> rw [h2] at hp
      · cases hp
      · cases hp
        exact ⟨rfl, resolveAdapters_length reg ans _ h2, rfl⟩

/-- Witness for C6: the concrete registry reg0 does not know planner
"NoSuchPlanner", and configuring with it yields a ConfigurationError. -/
theorem configure_resolution_failure_witness :
    (reg0.resolvePlanner "NoSuchPlanner" = none ∨
      ∃ n ∈ ["FixStartState"], reg0.resolveAdapter n = none) ∧
    ∃ e, configure reg0 "NoSuchPlanner" ["FixStartState"] = Except.error e :=
  ⟨Or.inl rfl,
    (configure_resolution_failure reg0 "NoSuchPlanner" ["FixStartState"]).1 (Or.inl rfl)⟩

/-- No pipeline operation changes the stored planner name or the stored
adapter name list. -/
theorem applyOp_names (st : PipelineState) (op : PipelineOp) :
    (applyOp st op).planner_plugin_name_ = st.planner_plugin_name_ ∧
    (applyOp st op).adapter_plugin_names_ = st.adapter_plugin_names_ := by
  cases op with
  | genPlan chain chk sink scene req a b c =>
    simp [applyOp, generatePlan_finalState]
  | term =>
    simp only [applyOp, terminate]
    split <;> exact ⟨rfl, rfl⟩
  | readIsActive => exact ⟨rfl, rfl⟩

/-- Running any operation sequence preserves the two accessor values. -/
theorem runOps_names (ops : List PipelineOp) (st : PipelineState) :
    getPlannerPluginName (runOps ops st) = getPlannerPluginName st ∧
    getAdapterPluginNames (runOps ops st) = getAdapterPluginNames st := by
  induction ops generalizing st with
  | nil => exact ⟨rfl, rfl⟩
  | cons op rest ih =>
    show (getPlannerPluginName (runOps rest (applyOp st op)) = _) ∧
      (getAdapterPluginNames (runOps rest (applyOp st op)) = _)
    rcases ih (applyOp st op) with ⟨h1, h2⟩
    rcases applyOp_names st op with ⟨h3, h4⟩
    exact ⟨h1.trans h3, h2.trans h4⟩

/-- C9: after a successful configure, getPlannerPluginName and
getAdapterPluginNames return the configured planner name and the configured
adapter list in order, no matter how many other operations (generatePlan,
terminate, isActive reads) are interleaved before the observation. -/
theorem accessor_stability (reg : CapabilityRegistry) (pn : String)
    (ans : List String) (p : ConfiguredPipeline)
    (hc : configure reg pn ans = Except.ok p) (ops : List PipelineOp) :
    getPlannerPluginName (runOps ops p.state) = pn ∧
    getAdapterPluginNames (runOps ops p.state) = ans := by
  have hstate : p.state = PipelineState.init pn ans := by
    unfold configure at hc
    cases h1 : reg.resolvePlanner pn <;> rw [h1] at hc
    · cases hc
    · cases h2 : resolveAdapters reg ans <;> rw [h2] at hc
      · cases hc
      · cases hc
        rfl
  rcases runOps_names ops p.state with ⟨h1, h2⟩
  rw [h1, h2, hstate]
  exact ⟨rfl, rfl⟩

/-- Witness for C9: configuring reg0 yields pipe0; after a concrete
interleaving of two generatePlan calls, terminate calls and an isActive
read, the accessors still return the configured values. -/
theorem accessor_stability_witness :
    configure reg0 "OMPL" ["FixStartState"] = Except.ok pipe0 ∧
    getPlannerPluginName (runOps ops0 pipe0.state) = "OMPL" ∧
    getAdapterPluginNames (runOps ops0 pipe0.state) = ["FixStartState"] := by
  have h := accessor_stability reg0 "OMPL" ["FixStartState"] pipe0 rfl ops0
  exact ⟨rfl, h.1, h.2⟩
